import Mathlib

set_option maxRecDepth 8000

/-!
Verification of the netperfmeter launcher (client/src/launcher.py) and the
measurement worker (client/src/netperfmeter.py).

The launcher reads modem metadata events from a stream and, when an event
matches the configured measurement target, supervises at most one worker
process per measurement id.  The worker runs a measurement cycle in a loop:
resolve the interface address, invoke the measurement binary, compress the
artifacts, publish them to the results directory, and sleep.

The embedding below translates the decision logic, the process supervision,
the cycle loop and the publish step into executable Lean definitions; the
external collaborators (the metadata socket, netifaces, the measurement and
compression binaries, the file system) are modelled as explicit parameters.
-/

namespace Launcher

/-- Static measurement target read from the configuration file `/monroe/config`:
`measurement_id`, the home network (`mcc`, `mnc`) and the optional `iccid`
(launcher.py lines 72-80). -/
structure Target where
  measurement_id : Int
  mcc : String
  mnc : String
  iccid : Option String
deriving DecidableEq, Repr

/-- One decoded metadata-stream message: the topic and the payload fields the
launcher reads.  `none` models a key absent from the JSON payload (a lookup
on it raises and aborts the extraction). -/
structure RawEvent where
  topic : String
  interfaceName : Option String
  imsimccmnc : Option String
  nwmccmnc : Option String
  iccid : Option String
deriving DecidableEq, Repr

/-- The per-message extraction variables of the launcher loop, all initialised
to `None` at the top of the loop (launcher.py lines 136-141). -/
structure Fields where
  metadata_if : Option String
  metadata_imsi_mcc_mnc : Option String
  metadata_nw_mcc_mnc : Option String
  metadata_iccid : Option String
  metadata_mcc : Option String
  metadata_mnc : Option String
deriving DecidableEq, Repr

/-- All extraction variables still `None`. -/
def emptyFields : Fields :=
  { metadata_if := none, metadata_imsi_mcc_mnc := none, metadata_nw_mcc_mnc := none,
    metadata_iccid := none, metadata_mcc := none, metadata_mnc := none }

/-- Python `s.startswith(p)`, by code points. -/
def strStartsWith (s p : String) : Bool := p.data.isPrefixOf s.data

/-- Python `s.endswith(p)`, by code points. -/
def strEndsWith (s p : String) : Bool := p.data.isSuffixOf s.data

/-- Python slice `s[0:n]`, by code points. -/
def strTake (s : String) (n : Nat) : String := String.mk (s.data.take n)

/-- Python slice `s[n:]`, by code points. -/
def strDrop (s : String) (n : Nat) : String := String.mk (s.data.drop n)

/-- launcher.py lines 150-164: if the topic starts with
`MONROE.META.DEVICE.MODEM` and ends with `.UPDATE`, read `InterfaceName`,
`IMSIMCCMNC`, `NWMCCMNC`, `ICCID` and split the IMSI network code into its
first three characters (mcc) and the remainder (mnc).  The reads happen in
this order inside one `try` block, so a missing key keeps the assignments
already made and leaves the rest `None`. -/
def extract (e : RawEvent) : Fields :=
  if strStartsWith e.topic "MONROE.META.DEVICE.MODEM" && strEndsWith e.topic ".UPDATE" then
    match e.interfaceName with
    | none => emptyFields
    | some i =>
      match e.imsimccmnc with
      | none => { emptyFields with metadata_if := some i }
      | some imsi =>
        match e.nwmccmnc with
        | none => { emptyFields with metadata_if := some i, metadata_imsi_mcc_mnc := some imsi }
        | some nw =>
          match e.iccid with
          | none =>
            { emptyFields with
              metadata_if := some i
              metadata_imsi_mcc_mnc := some imsi
              metadata_nw_mcc_mnc := some nw }
          | some icc =>
            { metadata_if := some i
              metadata_imsi_mcc_mnc := some imsi
              metadata_nw_mcc_mnc := some nw
              metadata_iccid := some icc
              metadata_mcc := some (strTake imsi 3)
              metadata_mnc := some (strDrop imsi 3) }
  else emptyFields

/-- launcher.py line 51: roaming is not authorized. -/
def IS_ROAMING_AUTHORIZED : Bool := false

/-- Result of the matching logic for one event. -/
inductive MatchResult where
  | Match (interface_name : String)
  | NoMatch
  | RoamingBlocked
deriving DecidableEq, Repr

/-- launcher.py lines 166-185: the matching decision for one event against the
configured target.  `are_mcc_mnc_equal_to_metadata` compares the configured
home network with the decomposed IMSI network code;
`is_iccid_none_or_equal_to_metadata` is the wildcard SIM check;
`is_metadata_if_none` checks only that `InterfaceName` was read (is not
`None`).  Inside the matched branch, `is_roaming` compares the full
`IMSIMCCMNC` and `NWMCCMNC` strings and, roaming being unauthorized, leads to
`sys.exit(1)` (modelled as `RoamingBlocked`). -/
def launcherDecision (t : Target) (e : RawEvent) : MatchResult :=
  let f := extract e
  let are_mcc_mnc_equal_to_metadata : Bool :=
    (some t.mcc == f.metadata_mcc) && (some t.mnc == f.metadata_mnc)
  let is_iccid_none_or_equal_to_metadata : Bool :=
    (t.iccid == f.metadata_iccid) || (t.iccid == none)
  let is_metadata_if_none : Bool := f.metadata_if == none
  if are_mcc_mnc_equal_to_metadata && is_iccid_none_or_equal_to_metadata
      && !is_metadata_if_none then
    let is_roaming : Bool := f.metadata_imsi_mcc_mnc != f.metadata_nw_mcc_mnc
    if is_roaming && !IS_ROAMING_AUTHORIZED then
      .RoamingBlocked
    else
      .Match (f.metadata_if.getD "")
  else
    .NoMatch

/-- Path of the worker script started by the launcher (launcher.py line 203). -/
def NETPERFMETER_SCRIPT : String :=
  "/opt/monroe/nne-experiment-netperfmeter/client/src/netperfmeter.py"

/-- A handle to a spawned worker process: its pid, the command vector it was
started with, and the result of `poll()` (`none` while it is running). -/
structure Popen where
  pid : Nat
  cmd : List String
  pollResult : Option Int
deriving DecidableEq, Repr

/-- launcher.py lines 202-208: the command vector for a new worker. -/
def workerCmd (metadata_if : String) (measurement_id : Int) : List String :=
  [NETPERFMETER_SCRIPT, "--iface", metadata_if, "-id", toString measurement_id]

/-- `subprocess.Popen(cmd)`: a freshly spawned, still-running worker. -/
def spawn (pid : Nat) (metadata_if : String) (measurement_id : Int) : Popen :=
  { pid := pid, cmd := workerCmd metadata_if measurement_id, pollResult := none }

/-- The `processes` dict of the launcher, keyed by measurement id. -/
abbrev Processes := List (Int × Popen)

/-- `processes[measurement_id]` when present. -/
def dictLookup : Processes → Int → Option Popen
  | [], _ => none
  | kv :: rest, k => if kv.1 == k then some kv.2 else dictLookup rest k

/-- `measurement_id in processes`. -/
def dictContains : Processes → Int → Bool
  | [], _ => false
  | kv :: rest, k => kv.1 == k || dictContains rest k

/-- `del processes[measurement_id]`. -/
def dictErase : Processes → Int → Processes
  | [], _ => []
  | kv :: rest, k => if kv.1 == k then dictErase rest k else kv :: dictErase rest k

/-- `processes[measurement_id] = v` on a dict not containing the key. -/
def dictAppend (d : Processes) (k : Int) (v : Popen) : Processes :=
  d ++ [(k, v)]

/-- launcher.py lines 186-210: the supervision step run for a matching event.
If a process is tracked for `measurement_id` and its `poll()` is not `None`
(it has exited), drop the handle; afterwards, if no process is tracked,
spawn a new worker and record it.  Returns the new dict and whether a
process was launched. -/
def ensure_running (processes : Processes) (measurement_id : Int)
    (metadata_if : String) (freshPid : Nat) : Processes × Bool :=
  let processes1 :=
    match dictLookup processes measurement_id with
    | some p => if p.pollResult != none then dictErase processes measurement_id else processes
    | none => processes
  if dictContains processes1 measurement_id then
    (processes1, false)
  else
    (dictAppend processes1 measurement_id (spawn freshPid metadata_if measurement_id), true)

/-- Observable effect of one launcher-loop iteration. -/
inductive LauncherAction where
  | exitNonZero
  | launched (interface_name : String)
  | noop
deriving DecidableEq, Repr

/-- One iteration of the launcher loop after a message has been decoded:
match the event, exit on unauthorized roaming, otherwise supervise the
worker for the configured measurement id. -/
def launcherStep (t : Target) (processes : Processes) (e : RawEvent)
    (freshPid : Nat) : Processes × LauncherAction :=
  match launcherDecision t e with
  | .NoMatch => (processes, .noop)
  | .RoamingBlocked => (processes, .exitNonZero)
  | .Match iface =>
      let r := ensure_running processes t.measurement_id iface freshPid
      (r.1, if r.2 then .launched iface else .noop)

/-- The scenario-A target: home network mcc `"242"`, mnc `"01"`, no pinned SIM. -/
def scenarioATarget (mid : Int) : Target :=
  { measurement_id := mid, mcc := "242", mnc := "01", iccid := none }

/-- The scenario-A event with the field values exactly as the spec writes them. -/
def scenarioAEvent : RawEvent :=
  { topic := "MONROE.META.DEVICE.MODEM.1.UPDATE"
    interfaceName := some "wwan0"
    imsimccmnc := some "24201XXXXXXXXXX"
    nwmccmnc := some "24201XXXXXXXXXX"
    iccid := some "89470..." }

/-- Scenario-A event whose `IMSIMCCMNC` and `NWMCCMNC` carry the bare network
code `"24201"`, so that the first-3/rest decomposition gives exactly the
target's `("242", "01")`. -/
def scenarioAEventMccMnc : RawEvent :=
  { scenarioAEvent with imsimccmnc := some "24201", nwmccmnc := some "24201" }

/-- A matching event whose `InterfaceName` is present but equal to `""`. -/
def emptyIfaceEvent : RawEvent :=
  { topic := "MONROE.META.DEVICE.MODEM.1.UPDATE"
    interfaceName := some ""
    imsimccmnc := some "24201"
    nwmccmnc := some "24201"
    iccid := some "8947000000000000000" }

/-- Scenario-B event: same as the matching scenario-A event but served by a
foreign network (`NWMCCMNC = "26201"` while `IMSIMCCMNC = "24201"`). -/
def roamingEvent : RawEvent :=
  { scenarioAEventMccMnc with nwmccmnc := some "26201" }

/-- Number of entries the dict holds for key `k`. -/
def countKey : Processes → Int → Nat
  | [], _ => 0
  | kv :: rest, k => (if kv.1 == k then 1 else 0) + countKey rest k

/-- A worker handle whose `poll()` reports exit status 0. -/
def deadWorker : Popen := { pid := 7, cmd := workerCmd "wwan0" 1, pollResult := some 0 }

end Launcher

namespace Worker

/-- netperfmeter.py line 68: waiting time before restarting on error (s). -/
def SLEEP_ON_ERROR : Nat := 300

/-- netperfmeter.py lines 58-64: the available transport protocols. -/
inductive TransportProtocol where
  | tcp
  | udp
  | sctp
  | dccp
deriving DecidableEq, Repr

/-- `TransportProtocol(value)`: the by-value enum lookup argparse performs for
`--transport_protocol`; any other string raises inside argparse. -/
def parseTransportProtocol : String → Option TransportProtocol
  | "tcp" => some .tcp
  | "udp" => some .udp
  | "sctp" => some .sctp
  | "dccp" => some .dccp
  | _ => none

/-- Observable outcome of the worker's argument handling. -/
inductive CliOutcome where
  | exitCode (code : Nat)
  | enterMainLoop (compress : Bool)
deriving DecidableEq, Repr

/-- netperfmeter.py lines 224-240, the explicit verification block run on the
parsed options.  The `interval < 0` branch formats `options.bitrate`, an
attribute the options object does not have, so it terminates through an
uncaught AttributeError; the interpreter still exits with status 1, the same
observable exit code as the explicit `sys.exit(1)` calls.  The transport
check is kept although argparse's `choices` makes it unreachable. -/
def verifyArguments (dport time interval : Int) (tp : TransportProtocol)
    (uncompressed : Bool) : CliOutcome :=
  if dport < 1 ∨ dport > 65535 then .exitCode 1
  else if time < 0 ∨ time > 60 then .exitCode 1
  else if interval < 0 then .exitCode 1
  else if tp ∉ [TransportProtocol.tcp, .udp, .sctp, .dccp] then .exitCode 1
  else .enterMainLoop (!uncompressed)

/-- The worker CLI surface: argparse converts `--transport_protocol` through
the enum (an invalid choice makes argparse exit with status 2 before any of
the explicit checks run), then the verification block runs. -/
def workerCli (dport time interval : Int) (transport : String)
    (uncompressed : Bool) : CliOutcome :=
  match parseTransportProtocol transport with
  | none => .exitCode 2
  | some tp => verifyArguments dport time interval tp uncompressed

/-- Python exception kinds the worker model distinguishes. -/
inductive PyError where
  | valueError
  | keyError
  | indexError
  | calledProcessError
  | fileNotFoundError
deriving DecidableEq, Repr

/-- `netifaces.AF_INET` (Linux). -/
def AF_INET : Nat := 2

/-- `netifaces.AF_INET6` (Linux). -/
def AF_INET6 : Nat := 10

/-- The netifaces address table: `ifaddrs name af` is the address list of
interface `name` for family `af`; `none` models a missing family key. -/
abbrev IfAddrs := String → Nat → Option (List String)

/-- netperfmeter.py lines 103-118: the explicit `raise ValueError` when
`ip_version` is not in `[4, 6]`; otherwise the address list of the requested
family is indexed at 0 (`[af][0]["addr"]`): a missing family key raises
KeyError and an empty list IndexError.  Address strings delivered by
netifaces are taken as already-valid `ip_address` inputs. -/
def get_network_interface_ip_address (ifaddrs : IfAddrs) (name : String)
    (ip_version : Int) : Except PyError String :=
  if ip_version ∉ [(4 : Int), 6] then
    .error .valueError
  else
    match ifaddrs name (if ip_version = 4 then AF_INET else AF_INET6) with
    | none => .error .keyError
    | some [] => .error .indexError
    | some (a :: _) => .ok a

/-- netperfmeter.py line 86: the final results directory. -/
def FINAL_RESULT_DIRECTORY : String := "/monroe/results"

/-- netperfmeter.py line 87: the staging directory. -/
def TMP_RESULT_DIRECTORY : String := "/tmp/results"

/-- The file system as a partial map from path to file contents. -/
abbrev FS := String → Option String

/-- Write (create or overwrite) the file at `p` with contents `c`. -/
def fsWrite (fs : FS) (p c : String) : FS :=
  fun q => if q = p then some c else fs q

/-- Remove the file at `p`. -/
def fsRemove (fs : FS) (p : String) : FS :=
  fun q => if q = p then none else fs q

/-- `pathlib.Path(p).name`: the last path component — the characters after
the final `/`. -/
def baseName (p : String) : String :=
  String.mk ((p.data.reverse.takeWhile (fun c => c != '/')).reverse)

/-- netperfmeter.py lines 121-136: copy the source to
`<directory>/<name>.tmp` (`shutil.copy2`), rename the copy to
`<directory>/<name>` (`shutil.move`), then unless `keep_source` remove the
original (`os.remove`) — in that order.  A missing source makes `copy2`
raise, modelled as `none`. -/
def safe_copy_file_to_dir (fs : FS) (file_path directory : String)
    (keep_source : Bool) : Option FS :=
  match fs file_path with
  | none => none
  | some content =>
    let destination_path := directory ++ "/" ++ baseName file_path
    let tmp_file := destination_path ++ ".tmp"
    let fs1 := fsWrite fs tmp_file content
    let fs2 := fsRemove (fsWrite fs1 destination_path content) tmp_file
    if keep_source then some fs2 else some (fsRemove fs2 file_path)

/-- The environment one worker cycle runs against: the options it reads, the
netifaces table, the measurement binary's exit status, the artifact files the
measurement produced (first glob), the per-file xz exit status, the
compressed files (second glob), and the staging file system. -/
structure CycleEnv where
  iface : String
  interval : Nat
  ifaddrs : IfAddrs
  measExitCode : Int
  producedFiles : List String
  xzExitCode : String → Int
  compressedFiles : List String
  fs : FS

/-- Step 3 (netperfmeter.py lines 302-312): one `xz --compress` invocation
per produced file; `subprocess.run(cmd, check=True)` raises on non-zero
exit. -/
def compressFiles (env : CycleEnv) : List String → Except PyError Unit
  | [] => .ok ()
  | f :: rest =>
    if env.xzExitCode f ≠ 0 then .error .calledProcessError
    else compressFiles env rest

/-- Step 4 (netperfmeter.py lines 313-319): publish every compressed file to
the final results directory. -/
def publishFiles (fs : FS) : List String → Except PyError FS
  | [] => .ok fs
  | f :: rest =>
    match safe_copy_file_to_dir fs f FINAL_RESULT_DIRECTORY false with
    | none => .error .fileNotFoundError
    | some fs1 => publishFiles fs1 rest

/-- netperfmeter.py lines 277-322, the try-block of one cycle: resolve the
interface IPv4 address (step 1), run netperfmeter (step 2,
`subprocess.check_output` raises on non-zero exit), compress the artifacts
(step 3), publish them (step 4); a successful cycle ends with
`time.sleep(options.interval * 60)` (step 5), whose duration is returned. -/
def cycleBody (env : CycleEnv) : Except PyError (FS × Nat) := do
  let _ ← get_network_interface_ip_address env.ifaddrs env.iface 4
  if env.measExitCode ≠ 0 then throw .calledProcessError
  let _ ← compressFiles env env.producedFiles
  let fs1 ← publishFiles env.fs env.compressedFiles
  pure (fs1, env.interval * 60)

/-- One full iteration of the `while RUNNING` loop: the try-block, or the
except-branch that logs a warning and sleeps `SLEEP_ON_ERROR`
(netperfmeter.py lines 324-327).  Returns the slept duration and whether the
warning was logged. -/
def loopIteration (env : CycleEnv) : Nat × Bool :=
  match cycleBody env with
  | .ok r => (r.2, false)
  | .error _ => (SLEEP_ON_ERROR, true)

/-- The main loop as a trace: while the RUNNING flag holds, the environments
are processed in turn by `loopIteration`; no exception escapes an
iteration. -/
def loopTrace (running : Bool) : List CycleEnv → List (Nat × Bool)
  | [] => []
  | env :: rest =>
    if running then loopIteration env :: loopTrace running rest else []

/-- Control points of the worker main loop. -/
inductive PC where
  | top
  | body (env : CycleEnv)
  | sleeping (duration : Nat)
  | exited

/-- The worker process state: the control point and the `RUNNING` global. -/
structure WorkerState where
  pc : PC
  running : Bool

/-- netperfmeter.py lines 97-100: the handler installed for SIGINT and
SIGTERM sets the single global boolean `RUNNING` to `False` and touches no
other state. -/
def signal_handler (s : WorkerState) : WorkerState := { s with running := false }

/-- Small-step of the main loop: the `RUNNING` flag is consulted only at
`top` (`while RUNNING is True`); a `body` step always completes the cycle,
moving to its sleep, and a `sleeping` step always completes, returning to
`top` — neither reads the flag.  `nextEnv` is the environment the next cycle
would run against. -/
def workerStep (s : WorkerState) (nextEnv : CycleEnv) : WorkerState :=
  match s.pc with
  | .top => if s.running then { s with pc := .body nextEnv } else { s with pc := .exited }
  | .body env => { s with pc := .sleeping (loopIteration env).1 }
  | .sleeping _ => { s with pc := .top }
  | .exited => s

/-- A netifaces table with a single IPv4 address on `wwan0`. -/
def wwanTable : IfAddrs := fun _ af => if af = AF_INET then some ["10.0.0.1"] else none

/-- A cycle environment whose interface has no addresses at all: step 1
raises (KeyError on the address family), so the cycle fails. -/
def errEnv : CycleEnv :=
  { iface := "wwan0"
    interval := 360
    ifaddrs := fun _ _ => none
    measExitCode := 0
    producedFiles := []
    xzExitCode := fun _ => 0
    compressedFiles := []
    fs := fun _ => none }

/-- A source file for the publish step, staged under the tmp directory. -/
def srcPath : String := TMP_RESULT_DIRECTORY ++ "/netperfmeter_1_vector.vec.bz2.xz"

/-- A staging file system holding only the source artifact. -/
def pubFS : FS := fun p => if p = srcPath then some "data" else none

end Worker

namespace Launcher

/-- C1 (counterexample): on the literal scenario-A event the extracted mnc is
`"01XXXXXXXXXX"` — the remainder of `"24201XXXXXXXXXX"` after the first three
characters — which differs from the target mnc `"01"`, so the decision is
`NoMatch`, not `Match "wwan0"`, and no worker is launched. -/
theorem scenarioA_literal_event_no_match :
    launcherDecision (scenarioATarget 1) scenarioAEvent = .NoMatch ∧
    launcherDecision (scenarioATarget 1) scenarioAEvent ≠ .Match "wwan0" ∧
    launcherStep (scenarioATarget 1) [] scenarioAEvent 7 = ([], .noop) := by
  refine ⟨by decide, by decide, by decide⟩

/-- C1 (amended): for the scenario-A event with topic
`"MONROE.META.DEVICE.MODEM.1.UPDATE"`, `InterfaceName "wwan0"`,
`ICCID "89470..."` and `IMSIMCCMNC = NWMCCMNC = "24201"` — the bare network
code, the only change the counterexample forces — against the target
`{mcc := "242", mnc := "01", iccid := none}`, the decision is
`Match "wwan0"`, and a launcher holding no handle for `measurement_id`
launches exactly one worker for it. -/
theorem scenarioA_match_and_single_launch (mid : Int) (fresh : Nat) :
    launcherDecision (scenarioATarget mid) scenarioAEventMccMnc = .Match "wwan0" ∧
    launcherStep (scenarioATarget mid) [] scenarioAEventMccMnc fresh =
      ([(mid, spawn fresh "wwan0" mid)], .launched "wwan0") :=
  ⟨rfl, rfl⟩

/-- C2 (counterexample): an event whose `InterfaceName` is the empty string is
not rejected — the code only tests `metadata_if is None` — so with the other
fields matching, the decision is `Match ""` rather than `NoMatch`, and a
worker is started with the empty interface name. -/
theorem empty_interface_name_matches :
    launcherDecision (scenarioATarget 1) emptyIfaceEvent = .Match "" ∧
    launcherDecision (scenarioATarget 1) emptyIfaceEvent ≠ .NoMatch ∧
    (launcherStep (scenarioATarget 1) [] emptyIfaceEvent 7).2 = .launched "" := by
  refine ⟨by decide, by decide, by decide⟩

/-- C2 (amended): an event that carries no interface name at all (the
extracted `metadata_if` is `None`, because the topic was not a modem UPDATE or
the `InterfaceName` key was absent) always yields `NoMatch`: no worker is
started and the launcher does not exit. -/
theorem absent_interface_name_no_match (t : Target) (e : RawEvent)
    (h : (extract e).metadata_if = none) (procs : Processes) (fresh : Nat) :
    launcherDecision t e = .NoMatch ∧ launcherStep t procs e fresh = (procs, .noop) := by
  have h1 : launcherDecision t e = .NoMatch := by
    unfold launcherDecision
    simp [h]
  exact ⟨h1, by simp [launcherStep, h1]⟩

/-- C2 (amended) witness: the scenario-A event with the `InterfaceName` key
removed yields `NoMatch` and an unchanged, workerless launcher state. -/
theorem absent_interface_name_no_match_witness :
    launcherDecision (scenarioATarget 1) { scenarioAEvent with interfaceName := none } = .NoMatch ∧
    launcherStep (scenarioATarget 1) [] { scenarioAEvent with interfaceName := none } 7 =
      ([], .noop) :=
  absent_interface_name_no_match (scenarioATarget 1) _ (by decide) [] 7

/-- Two strings agreeing on their first-`n`/rest decomposition are equal. -/
theorem string_eq_of_take_drop_eq (s t : String) (n : Nat)
    (h1 : strTake s n = strTake t n) (h2 : strDrop s n = strDrop t n) : s = t := by
  have h1' : s.data.take n = t.data.take n := congrArg String.data h1
  have h2' : s.data.drop n = t.data.drop n := congrArg String.data h2
  cases s with
  | mk sd =>
    cases t with
    | mk td =>
      have : sd = td := by
        rw [← List.take_append_drop n sd, ← List.take_append_drop n td]
        exact congrArg₂ List.append h1' h2'
      rw [this]

/-- C3: roaming handling.  (1) For every considered event whose subscriber
network equals its serving network under the first-3-characters/remainder
decomposition of `IMSIMCCMNC` and `NWMCCMNC`, `is_roaming` is false: the
decision is never `RoamingBlocked` and the launcher never exits on the event.
(2) Conversely, for a matching event (home network, SIM and interface checks
all pass) whose subscriber network differs from its serving network, the
decision is `RoamingBlocked` (roaming is unauthorized) and the launcher exits
with non-zero status without starting a worker or touching the process table. -/
theorem roaming_decision_correct :
    (∀ (t : Target) (e : RawEvent) (imsi nw : String),
      (extract e).metadata_imsi_mcc_mnc = some imsi →
      (extract e).metadata_nw_mcc_mnc = some nw →
      strTake imsi 3 = strTake nw 3 →
      strDrop imsi 3 = strDrop nw 3 →
      launcherDecision t e ≠ .RoamingBlocked ∧
      ∀ (procs : Processes) (fresh : Nat),
        (launcherStep t procs e fresh).2 ≠ .exitNonZero) ∧
    (∀ (t : Target) (e : RawEvent) (imsi nw : String),
      (extract e).metadata_mcc = some t.mcc →
      (extract e).metadata_mnc = some t.mnc →
      (t.iccid = (extract e).metadata_iccid ∨ t.iccid = none) →
      (extract e).metadata_if ≠ none →
      (extract e).metadata_imsi_mcc_mnc = some imsi →
      (extract e).metadata_nw_mcc_mnc = some nw →
      (strTake imsi 3 ≠ strTake nw 3 ∨ strDrop imsi 3 ≠ strDrop nw 3) →
      launcherDecision t e = .RoamingBlocked ∧
      ∀ (procs : Processes) (fresh : Nat),
        launcherStep t procs e fresh = (procs, .exitNonZero)) := by
  constructor
  · intro t e imsi nw hi hn ht hd
    have heq : imsi = nw := string_eq_of_take_drop_eq imsi nw 3 ht hd
    subst heq
    have hdec : launcherDecision t e ≠ .RoamingBlocked := by
      unfold launcherDecision
      simp [hi, hn]
      intro hcontra
      split at hcontra <;> simp at hcontra
    refine ⟨hdec, ?_⟩
    intro procs fresh
    unfold launcherStep
    cases hd : launcherDecision t e with
    | NoMatch => simp
    | RoamingBlocked => exact absurd hd hdec
    | Match iface =>
      simp only []
      cases hb : (ensure_running procs t.measurement_id iface fresh).2 <;> simp
  · intro t e imsi nw hmcc hmnc hicc hif hi hn hne
    have hneq : imsi ≠ nw := by
      intro h
      subst h
      rcases hne with h | h <;> exact h rfl
    have hdec : launcherDecision t e = .RoamingBlocked := by
      unfold launcherDecision
      have hif' : ((extract e).metadata_if == none) = false := by
        cases hv : (extract e).metadata_if with
        | none => exact absurd hv hif
        | some v => rfl
      rcases hicc with h | h <;>
        simp [hmcc, hmnc, h, hif', hi, hn, hneq, IS_ROAMING_AUTHORIZED]
    refine ⟨hdec, ?_⟩
    intro procs fresh
    simp [launcherStep, hdec]

/-- C3 witness: a non-roaming event (equal subscriber and serving networks) is
never blocked and never causes an exit, and the same event with a different
serving network code is blocked with a non-zero exit and an untouched,
workerless process table. -/
theorem roaming_decision_correct_witness :
    launcherDecision (scenarioATarget 1) scenarioAEventMccMnc ≠ .RoamingBlocked ∧
    (launcherStep (scenarioATarget 1) [] scenarioAEventMccMnc 7).2 ≠ .exitNonZero ∧
    launcherDecision (scenarioATarget 1) roamingEvent = .RoamingBlocked ∧
    launcherStep (scenarioATarget 1) [] roamingEvent 7 = ([], .exitNonZero) := by
  have h1 := roaming_decision_correct.1 (scenarioATarget 1) scenarioAEventMccMnc
    "24201" "24201" (by decide) (by decide) rfl rfl
  have h2 := roaming_decision_correct.2 (scenarioATarget 1) roamingEvent
    "24201" "26201" (by decide) (by decide) (Or.inr rfl) (by decide)
    (by decide) (by decide) (Or.inl (by decide))
  exact ⟨h1.1, h1.2 [] 7, h2.1, h2.2 [] 7⟩

theorem dictContains_eq_isSome (d : Processes) (k : Int) :
    dictContains d k = (dictLookup d k).isSome := by
  induction d with
  | nil => rfl
  | cons kv rest ih =>
    by_cases h : (kv.1 == k) = true
    · simp [dictContains, dictLookup, h]
    · simp only [dictContains, dictLookup, eq_false_of_ne_true h, Bool.false_or, if_neg h]
      exact ih

theorem dictLookup_erase_self (d : Processes) (k : Int) :
    dictLookup (dictErase d k) k = none := by
  induction d with
  | nil => rfl
  | cons kv rest ih =>
    by_cases h : (kv.1 == k) = true
    · simpa [dictErase, h] using ih
    · simpa [dictErase, dictLookup, h] using ih

theorem dictContains_erase_self (d : Processes) (k : Int) :
    dictContains (dictErase d k) k = false := by
  rw [dictContains_eq_isSome, dictLookup_erase_self]
  rfl

theorem dictLookup_erase_ne (d : Processes) (k k' : Int) (h : k' ≠ k) :
    dictLookup (dictErase d k) k' = dictLookup d k' := by
  induction d with
  | nil => rfl
  | cons kv rest ih =>
    by_cases h1 : (kv.1 == k) = true
    · have hk' : (kv.1 == k') = false := by
        have : kv.1 = k := eq_of_beq h1
        simp [this]
        exact fun hc => h hc.symm
      simpa [dictErase, dictLookup, h1, hk'] using ih
    · by_cases h2 : (kv.1 == k') = true
      · simp [dictErase, dictLookup, h1, h2]
      · simpa [dictErase, dictLookup, h1, h2] using ih

theorem countKey_erase_ne (d : Processes) (k k' : Int) (h : k' ≠ k) :
    countKey (dictErase d k) k' = countKey d k' := by
  induction d with
  | nil => rfl
  | cons kv rest ih =>
    by_cases h1 : (kv.1 == k) = true
    · have hk' : (kv.1 == k') = false := by
        have : kv.1 = k := eq_of_beq h1
        simp [this]
        exact fun hc => h hc.symm
      simpa [dictErase, countKey, h1, hk'] using ih
    · simpa [dictErase, countKey, h1] using ih

theorem countKey_erase_self (d : Processes) (k : Int) :
    countKey (dictErase d k) k = 0 := by
  induction d with
  | nil => rfl
  | cons kv rest ih =>
    by_cases h : (kv.1 == k) = true
    · simpa [dictErase, h] using ih
    · simpa [dictErase, countKey, h] using ih

theorem countKey_append (d1 d2 : Processes) (k : Int) :
    countKey (d1 ++ d2) k = countKey d1 k + countKey d2 k := by
  induction d1 with
  | nil => simp [countKey]
  | cons kv rest ih =>
    simp only [List.cons_append, countKey, List.append_eq]
    rw [ih]
    omega

theorem dictLookup_append (d1 d2 : Processes) (k : Int) :
    dictLookup (d1 ++ d2) k =
      match dictLookup d1 k with
      | some v => some v
      | none => dictLookup d2 k := by
  induction d1 with
  | nil => rfl
  | cons kv rest ih =>
    by_cases h : (kv.1 == k) = true
    · simp [dictLookup, h]
    · simpa [dictLookup, h] using ih

theorem countKey_singleton_le (k' k : Int) (v : Popen) : countKey [(k', v)] k ≤ 1 := by
  by_cases h : (k' == k) = true
  · simp [countKey, h]
  · simp [countKey, h]

/-- C4: with a tracked process for `measurement_id` whose `poll()` is still
`None` (the worker is alive), `ensure_running` is a no-op: it launches no
process and leaves the dict unchanged, so a second call in succession again
launches nothing and changes nothing. -/
theorem ensure_running_idempotent (procs : Processes) (mid : Int) (p : Popen)
    (hlook : dictLookup procs mid = some p) (halive : p.pollResult = none)
    (iface iface2 : String) (fresh fresh2 : Nat) :
    ensure_running procs mid iface fresh = (procs, false) ∧
    ensure_running ((ensure_running procs mid iface fresh).1) mid iface2 fresh2 =
      ((ensure_running procs mid iface fresh).1, false) := by
  have hc : dictContains procs mid = true := by
    rw [dictContains_eq_isSome, hlook]
    rfl
  have key : ∀ (ifc : String) (fr : Nat), ensure_running procs mid ifc fr = (procs, false) := by
    intro ifc fr
    unfold ensure_running
    rw [hlook]
    simp [halive, hc]
  have h1 : (ensure_running procs mid iface fresh).1 = procs := by rw [key]
  refine ⟨key iface fresh, ?_⟩
  rw [h1, key]

/-- C4 witness: one alive tracked worker for id 1; both calls are no-ops. -/
theorem ensure_running_idempotent_witness :
    ensure_running [(1, spawn 7 "wwan0" 1)] 1 "wwan0" 8 =
      ([(1, spawn 7 "wwan0" 1)], false) ∧
    ensure_running ((ensure_running [(1, spawn 7 "wwan0" 1)] 1 "wwan0" 8).1) 1 "wwan0" 9 =
      ((ensure_running [(1, spawn 7 "wwan0" 1)] 1 "wwan0" 8).1, false) :=
  ensure_running_idempotent [(1, spawn 7 "wwan0" 1)] 1 (spawn 7 "wwan0" 1)
    (by decide) rfl "wwan0" "wwan0" 8 9

/-- C5: if the tracked process for `measurement_id` has exited (its `poll()`
reports a termination status), the next `ensure_running` call removes the old
handle, launches exactly one new worker and records exactly one new handle for
that id; entries for every other id are untouched, and the dict keeps at most
one handle per id. -/
theorem ensure_running_restart (procs : Processes) (mid : Int) (p : Popen) (code : Int)
    (hlook : dictLookup procs mid = some p) (hdead : p.pollResult = some code)
    (iface : String) (fresh : Nat) (hwf : ∀ k, countKey procs k ≤ 1) :
    (ensure_running procs mid iface fresh).2 = true ∧
    (ensure_running procs mid iface fresh).1 =
      dictAppend (dictErase procs mid) mid (spawn fresh iface mid) ∧
    dictLookup (ensure_running procs mid iface fresh).1 mid = some (spawn fresh iface mid) ∧
    countKey (ensure_running procs mid iface fresh).1 mid = 1 ∧
    (∀ k, k ≠ mid → dictLookup (ensure_running procs mid iface fresh).1 k = dictLookup procs k) ∧
    (∀ k, countKey (ensure_running procs mid iface fresh).1 k ≤ 1) := by
  have hstep : ensure_running procs mid iface fresh =
      (dictAppend (dictErase procs mid) mid (spawn fresh iface mid), true) := by
    unfold ensure_running
    rw [hlook]
    simp [hdead, dictContains_erase_self]
  have h1 : (ensure_running procs mid iface fresh).1 =
      dictAppend (dictErase procs mid) mid (spawn fresh iface mid) := by rw [hstep]
  have h2 : (ensure_running procs mid iface fresh).2 = true := by rw [hstep]
  refine ⟨h2, h1, ?_, ?_, ?_, ?_⟩
  · rw [h1]
    unfold dictAppend
    rw [dictLookup_append, dictLookup_erase_self]
    simp [dictLookup]
  · rw [h1]
    unfold dictAppend
    rw [countKey_append, countKey_erase_self]
    simp [countKey]
  · intro k hk
    rw [h1]
    unfold dictAppend
    rw [dictLookup_append, dictLookup_erase_ne procs mid k hk]
    have hmk : ((mid : Int) == k) = false := by
      simp
      exact fun hc => absurd hc.symm hk
    cases hl : dictLookup procs k with
    | none => simp [dictLookup, hmk]
    | some v => rfl
  · intro k
    rw [h1]
    unfold dictAppend
    rw [countKey_append]
    by_cases hk : k = mid
    · subst hk
      rw [countKey_erase_self]
      simp [countKey]
    · have hmk : ((mid : Int) == k) = false := by
        simp
        exact fun hc => absurd hc.symm hk
      rw [countKey_erase_ne procs mid k hk]
      simp [countKey, hmk]
      exact hwf k

/-- C5 witness: a dict tracking one exited worker for id 1; the call launches
one fresh worker, replaces the handle, and leaves (absent) id 2 untouched. -/
theorem ensure_running_restart_witness :
    (ensure_running [(1, deadWorker)] 1 "wwan0" 8).2 = true ∧
    dictLookup (ensure_running [(1, deadWorker)] 1 "wwan0" 8).1 1 =
      some (spawn 8 "wwan0" 1) ∧
    countKey (ensure_running [(1, deadWorker)] 1 "wwan0" 8).1 1 = 1 ∧
    dictLookup (ensure_running [(1, deadWorker)] 1 "wwan0" 8).1 2 =
      dictLookup [(1, deadWorker)] 2 ∧
    countKey (ensure_running [(1, deadWorker)] 1 "wwan0" 8).1 2 ≤ 1 := by
  have h := ensure_running_restart [(1, deadWorker)] 1 deadWorker 0 (by decide) rfl
    "wwan0" 8 (fun k => countKey_singleton_le 1 k deadWorker)
  exact ⟨h.1, h.2.2.1, h.2.2.2.1, h.2.2.2.2.1 2 (by decide), h.2.2.2.2.2 2⟩

end Launcher

namespace Worker

/-- Appending `".tmp"` to a path changes it. -/
theorem ne_append_tmp (s : String) : s ≠ s ++ ".tmp" := by
  intro h
  have hd : s.data = s.data ++ ".tmp".data := by
    have h2 := congrArg String.data h
    simp only [String.data_append] at h2
    exact h2
  have hl := congrArg List.length hd
  have h4 : (".tmp".data).length = 4 := rfl
  rw [List.length_append, h4] at hl
  omega

/-- C10: `get_network_interface_ip_address` raises ValueError exactly when
`ip_version` is neither 4 nor 6; for `ip_version ∈ {4, 6}` it queries the
interface's addresses for the matching address family and returns the first
one, so the ValueError branch is unreachable under the precondition. -/
theorem ip_version_handling (ifaddrs : IfAddrs) (name : String) (v : Int) :
    (get_network_interface_ip_address ifaddrs name v = .error .valueError ↔
      ¬(v = 4 ∨ v = 6)) ∧
    ((v = 4 ∨ v = 6) → ∀ (a : String) (rest : List String),
      ifaddrs name (if v = 4 then AF_INET else AF_INET6) = some (a :: rest) →
      get_network_interface_ip_address ifaddrs name v = .ok a) := by
  by_cases hv : v = 4 ∨ v = 6
  · have hmem : v ∈ [(4 : Int), 6] := by
      rcases hv with h | h
      · simp [h]
      · simp [h]
    have hcond : ¬ v ∉ [(4 : Int), 6] := not_not_intro hmem
    constructor
    · constructor
      · intro hcontra
        exfalso
        rw [get_network_interface_ip_address, if_neg hcond] at hcontra
        cases hf : ifaddrs name (if v = 4 then AF_INET else AF_INET6) with
        | none => rw [hf] at hcontra; simp at hcontra
        | some l =>
          cases l with
          | nil => rw [hf] at hcontra; simp at hcontra
          | cons a rest => rw [hf] at hcontra; simp at hcontra
      · intro h
        exact absurd hv h
    · intro _ a rest hf
      rw [get_network_interface_ip_address, if_neg hcond, hf]
  · have hcond : v ∉ [(4 : Int), 6] := by simpa using hv
    refine ⟨?_, fun h => absurd h hv⟩
    rw [get_network_interface_ip_address, if_pos hcond]
    simp [hv]

/-- C10 witness: version 5 hits the ValueError branch exactly because
`5 ∉ {4, 6}`, and version 4 returns the interface's first IPv4 address. -/
theorem ip_version_handling_witness :
    (get_network_interface_ip_address wwanTable "wwan0" 5 = .error .valueError ↔
      ¬((5 : Int) = 4 ∨ (5 : Int) = 6)) ∧
    get_network_interface_ip_address wwanTable "wwan0" 4 = .ok "10.0.0.1" :=
  ⟨(ip_version_handling wwanTable "wwan0" 5).1,
    (ip_version_handling wwanTable "wwan0" 4).2 (Or.inl rfl) "10.0.0.1" [] rfl⟩

/-- C7 (counterexample): an unrecognized transport protocol value is rejected
by argparse itself (`type=TransportProtocol` with `choices`), which exits
with status 2, not 1; the code's own exit-1 transport check never runs. -/
theorem unknown_transport_exits_with_2 :
    workerCli 15211 5 360 "quic" false = .exitCode 2 ∧
    workerCli 15211 5 360 "quic" false ≠ .exitCode 1 := by
  refine ⟨rfl, by decide⟩

/-- C7 (amended): an out-of-range destination port, run duration or negative
interval makes the worker CLI exit with code 1 before the measurement loop
(for the negative interval through an uncaught AttributeError, still status
1); an unrecognized transport protocol makes argparse exit with code 2; in
every such case the main loop is never entered. -/
theorem invalid_arguments_exit (dport time interval : Int) (transport : String)
    (u : Bool) :
    (∀ tp, parseTransportProtocol transport = some tp →
      (dport < 1 ∨ dport > 65535 ∨ time < 0 ∨ time > 60 ∨ interval < 0) →
      workerCli dport time interval transport u = .exitCode 1) ∧
    (parseTransportProtocol transport = none →
      workerCli dport time interval transport u = .exitCode 2) ∧
    ((dport < 1 ∨ dport > 65535 ∨ time < 0 ∨ time > 60 ∨ interval < 0 ∨
        parseTransportProtocol transport = none) →
      ∀ b, workerCli dport time interval transport u ≠ .enterMainLoop b) := by
  have hver : ∀ tp : TransportProtocol,
      (dport < 1 ∨ dport > 65535 ∨ time < 0 ∨ time > 60 ∨ interval < 0) →
      verifyArguments dport time interval tp u = .exitCode 1 := by
    intro tp hbad
    unfold verifyArguments
    by_cases h1 : dport < 1 ∨ dport > 65535
    · rw [if_pos h1]
    · rw [if_neg h1]
      by_cases h2 : time < 0 ∨ time > 60
      · rw [if_pos h2]
      · rw [if_neg h2]
        by_cases h3 : interval < 0
        · rw [if_pos h3]
        · exfalso
          rcases hbad with h | h | h | h | h
          · exact h1 (Or.inl h)
          · exact h1 (Or.inr h)
          · exact h2 (Or.inl h)
          · exact h2 (Or.inr h)
          · exact h3 h
  refine ⟨?_, ?_, ?_⟩
  · intro tp htp hbad
    unfold workerCli
    rw [htp]
    show verifyArguments dport time interval tp u = CliOutcome.exitCode 1
    exact hver tp hbad
  · intro hnone
    unfold workerCli
    rw [hnone]
  · intro hbad b
    cases htp : parseTransportProtocol transport with
    | none =>
      unfold workerCli
      rw [htp]
      exact fun hc => CliOutcome.noConfusion hc
    | some tp =>
      have hnum : dport < 1 ∨ dport > 65535 ∨ time < 0 ∨ time > 60 ∨ interval < 0 := by
        rcases hbad with h | h | h | h | h | h
        · exact Or.inl h
        · exact Or.inr (Or.inl h)
        · exact Or.inr (Or.inr (Or.inl h))
        · exact Or.inr (Or.inr (Or.inr (Or.inl h)))
        · exact Or.inr (Or.inr (Or.inr (Or.inr h)))
        · rw [htp] at h
          exact Option.noConfusion h
      have hw : workerCli dport time interval transport u = .exitCode 1 := by
        unfold workerCli
        rw [htp]
        show verifyArguments dport time interval tp u = CliOutcome.exitCode 1
        exact hver tp hnum
      rw [hw]
      exact fun hc => CliOutcome.noConfusion hc

/-- C7 witness: port 0 exits with 1; transport `"quic"` exits with 2; run
duration 99 never reaches the main loop. -/
theorem invalid_arguments_exit_witness :
    workerCli 0 5 360 "udp" false = .exitCode 1 ∧
    workerCli 15211 5 360 "quic" false = .exitCode 2 ∧
    workerCli 15211 99 360 "udp" false ≠ .enterMainLoop true :=
  ⟨(invalid_arguments_exit 0 5 360 "udp" false).1 .udp rfl (Or.inl (by decide)),
    (invalid_arguments_exit 15211 5 360 "quic" false).2.1 rfl,
    (invalid_arguments_exit 15211 99 360 "udp" false).2.2
      (Or.inr (Or.inr (Or.inr (Or.inl (by decide))))) true⟩

end Worker

namespace Worker

/-- C8: for a source file published by `safe_copy_file_to_dir` (with
`keep_source = False`, as the publish step calls it), the function is exactly
the composition copy-to-`.tmp`, then rename (write final name and drop the
`.tmp`), then remove-source — in that order — and afterwards the content is
present in the final directory under its own name, no `<name>.tmp` remains,
and the original source file is gone. -/
theorem safe_copy_atomic_publish (fs : FS) (file_path directory content : String)
    (hsrc : fs file_path = some content)
    (hdst : file_path ≠ directory ++ "/" ++ baseName file_path)
    (htmp : file_path ≠ directory ++ "/" ++ baseName file_path ++ ".tmp") :
    safe_copy_file_to_dir fs file_path directory false =
      some (fsRemove (fsRemove (fsWrite (fsWrite fs
          (directory ++ "/" ++ baseName file_path ++ ".tmp") content)
          (directory ++ "/" ++ baseName file_path) content)
          (directory ++ "/" ++ baseName file_path ++ ".tmp")) file_path) ∧
    (fsRemove (fsRemove (fsWrite (fsWrite fs
          (directory ++ "/" ++ baseName file_path ++ ".tmp") content)
          (directory ++ "/" ++ baseName file_path) content)
          (directory ++ "/" ++ baseName file_path ++ ".tmp")) file_path)
        (directory ++ "/" ++ baseName file_path) = some content ∧
    (fsRemove (fsRemove (fsWrite (fsWrite fs
          (directory ++ "/" ++ baseName file_path ++ ".tmp") content)
          (directory ++ "/" ++ baseName file_path) content)
          (directory ++ "/" ++ baseName file_path ++ ".tmp")) file_path)
        (directory ++ "/" ++ baseName file_path ++ ".tmp") = none ∧
    (fsRemove (fsRemove (fsWrite (fsWrite fs
          (directory ++ "/" ++ baseName file_path ++ ".tmp") content)
          (directory ++ "/" ++ baseName file_path) content)
          (directory ++ "/" ++ baseName file_path ++ ".tmp")) file_path)
        file_path = none := by
  have hdst' : directory ++ "/" ++ baseName file_path ≠ file_path := Ne.symm hdst
  have htmp' : directory ++ "/" ++ baseName file_path ++ ".tmp" ≠ file_path := Ne.symm htmp
  have hdt : directory ++ "/" ++ baseName file_path ≠
      directory ++ "/" ++ baseName file_path ++ ".tmp" := ne_append_tmp _
  refine ⟨?_, ?_, ?_, ?_⟩
  · unfold safe_copy_file_to_dir
    rw [hsrc]
    rfl
  · simp [fsRemove, fsWrite, hdst', hdt]
  · simp [fsRemove, fsWrite, htmp']
  · simp [fsRemove]

/-- C8 witness: publishing the staged artifact into the final results
directory leaves its content under its final name, no `.tmp` file, and no
source file. -/
theorem safe_copy_atomic_publish_witness :
    safe_copy_file_to_dir pubFS srcPath FINAL_RESULT_DIRECTORY false =
      some (fsRemove (fsRemove (fsWrite (fsWrite pubFS
          (FINAL_RESULT_DIRECTORY ++ "/" ++ baseName srcPath ++ ".tmp") "data")
          (FINAL_RESULT_DIRECTORY ++ "/" ++ baseName srcPath) "data")
          (FINAL_RESULT_DIRECTORY ++ "/" ++ baseName srcPath ++ ".tmp")) srcPath) ∧
    (fsRemove (fsRemove (fsWrite (fsWrite pubFS
          (FINAL_RESULT_DIRECTORY ++ "/" ++ baseName srcPath ++ ".tmp") "data")
          (FINAL_RESULT_DIRECTORY ++ "/" ++ baseName srcPath) "data")
          (FINAL_RESULT_DIRECTORY ++ "/" ++ baseName srcPath ++ ".tmp")) srcPath)
        (FINAL_RESULT_DIRECTORY ++ "/" ++ baseName srcPath) = some "data" ∧
    (fsRemove (fsRemove (fsWrite (fsWrite pubFS
          (FINAL_RESULT_DIRECTORY ++ "/" ++ baseName srcPath ++ ".tmp") "data")
          (FINAL_RESULT_DIRECTORY ++ "/" ++ baseName srcPath) "data")
          (FINAL_RESULT_DIRECTORY ++ "/" ++ baseName srcPath ++ ".tmp")) srcPath)
        (FINAL_RESULT_DIRECTORY ++ "/" ++ baseName srcPath ++ ".tmp") = none ∧
    (fsRemove (fsRemove (fsWrite (fsWrite pubFS
          (FINAL_RESULT_DIRECTORY ++ "/" ++ baseName srcPath ++ ".tmp") "data")
          (FINAL_RESULT_DIRECTORY ++ "/" ++ baseName srcPath) "data")
          (FINAL_RESULT_DIRECTORY ++ "/" ++ baseName srcPath ++ ".tmp")) srcPath)
        srcPath = none :=
  safe_copy_atomic_publish pubFS srcPath FINAL_RESULT_DIRECTORY "data"
    (by decide) (by decide) (by decide)

/-- C6: a cycle in which any step raises transitions to the except-branch:
the warning is logged and the sleep is the fixed `SLEEP_ON_ERROR` backoff,
never the normal `interval * 60` sleep (whenever the two differ); the loop
then continues with the next cycle — a single failed cycle never terminates
the trace. -/
theorem error_cycle_backs_off (env : CycleEnv) (err : PyError)
    (rest : List CycleEnv) (herr : cycleBody env = .error err) :
    loopIteration env = (SLEEP_ON_ERROR, true) ∧
    (env.interval * 60 ≠ SLEEP_ON_ERROR → (loopIteration env).1 ≠ env.interval * 60) ∧
    loopTrace true (env :: rest) = (SLEEP_ON_ERROR, true) :: loopTrace true rest ∧
    (loopTrace true (env :: rest)).length = rest.length + 1 := by
  have h1 : loopIteration env = (SLEEP_ON_ERROR, true) := by
    unfold loopIteration
    rw [herr]
  have hlen : ∀ l : List CycleEnv, (loopTrace true l).length = l.length := by
    intro l
    induction l with
    | nil => rfl
    | cons e r ih => simpa [loopTrace] using ih
  refine ⟨h1, ?_, ?_, ?_⟩
  · intro hne
    rw [h1]
    exact fun hc => hne hc.symm
  · simp [loopTrace, h1]
  · simp [loopTrace, hlen rest]

/-- C6 witness: a cycle whose interface has no addresses fails in step 1,
sleeps the 300 s backoff — not the 21600 s interval — and the loop goes on to
process the next cycle. -/
theorem error_cycle_backs_off_witness :
    loopIteration errEnv = (SLEEP_ON_ERROR, true) ∧
    (loopIteration errEnv).1 ≠ errEnv.interval * 60 ∧
    loopTrace true [errEnv, errEnv] =
      [(SLEEP_ON_ERROR, true), (SLEEP_ON_ERROR, true)] ∧
    (loopTrace true [errEnv, errEnv]).length = 2 := by
  have h := error_cycle_backs_off errEnv .keyError [errEnv] rfl
  have h2 := error_cycle_backs_off errEnv .keyError [] rfl
  refine ⟨h.1, h.2.1 (by decide), ?_, h.2.2.2⟩
  rw [h.2.2.1, h2.2.2.1]
  rfl

/-- C9: shutdown is cooperative and non-preemptive.  (1) The signal handler
sets the single `RUNNING` boolean and changes nothing else of the state.
(2) A cycle-body step proceeds identically whatever the flag's value — the
flag is never read inside steps 1-4 — and (3) so does the sleep step.
(4) From inside a cycle with the flag already cleared, the machine still
finishes the cycle, performs its sleep, returns to the loop top and only
there observes the flag and exits. -/
theorem cooperative_shutdown :
    (∀ s : WorkerState, signal_handler s = { pc := s.pc, running := false }) ∧
    (∀ (env nextEnv : CycleEnv) (r : Bool),
      workerStep { pc := .body env, running := r } nextEnv =
        { pc := .sleeping (loopIteration env).1, running := r }) ∧
    (∀ (d : Nat) (nextEnv : CycleEnv) (r : Bool),
      workerStep { pc := .sleeping d, running := r } nextEnv =
        { pc := .top, running := r }) ∧
    (∀ (env e1 e2 e3 : CycleEnv),
      workerStep (workerStep (workerStep
          { pc := .body env, running := false } e1) e2) e3 =
        { pc := .exited, running := false }) :=
  ⟨fun _ => rfl, fun _ _ _ => rfl, fun _ _ _ => rfl, fun _ _ _ _ => rfl⟩

end Worker

namespace Launcher

/-- C1 (amended) witness: the amended scenario at measurement id 1. -/
theorem scenarioA_match_and_single_launch_witness :
    launcherDecision (scenarioATarget 1) scenarioAEventMccMnc = .Match "wwan0" ∧
    launcherStep (scenarioATarget 1) [] scenarioAEventMccMnc 7 =
      ([(1, spawn 7 "wwan0" 1)], .launched "wwan0") :=
  scenarioA_match_and_single_launch 1 7

end Launcher

namespace Worker

/-- C9 witness: a delivered signal flips only the flag, and a cycle already in
flight with the flag cleared still sleeps before the loop exits. -/
theorem cooperative_shutdown_witness :
    signal_handler { pc := .top, running := true } = { pc := .top, running := false } ∧
    workerStep { pc := .body errEnv, running := false } errEnv =
      { pc := .sleeping (loopIteration errEnv).1, running := false } ∧
    workerStep (workerStep (workerStep
        { pc := .body errEnv, running := false } errEnv) errEnv) errEnv =
      { pc := .exited, running := false } :=
  ⟨cooperative_shutdown.1 { pc := .top, running := true },
    cooperative_shutdown.2.1 errEnv errEnv false,
    cooperative_shutdown.2.2.2 errEnv errEnv errEnv errEnv⟩

end Worker
